import Mathlib

/-!
Shallow embedding of the ZeroTouch workflow core
(`useZeroTouchWorkflow` hook, file `src/hooks/useZeroTouchWorkflow.ts`,
together with the data tables of `src/data/mockData.ts` and the types of
`src/types/zerotouch.ts`).

Modelling conventions, chosen once and used throughout:
* JavaScript numbers are modelled as rationals (ℚ); decimal literals of the
  source are written as exact fractions (0.92 becomes 92/100).
* Timestamps (`Date.now()`, `new Date().toISOString()`) are modelled as
  natural-number clock values supplied by the environment; the ISO string
  formatting is presentational and not modelled.
* `Record<string, any>` values (tool parameters and results) are modelled by
  a small JSON value type `JsonVal`.  A JavaScript object literal with an
  `undefined`-valued key is modelled by omitting that key.
* The React `setState` / `useState` pair is modelled by explicit state
  passing: every operation is a function `Sys → Sys` on the full observable
  state (the `WorkflowState`, the `pendingApproval` cell and the timer ref).
* `timeoutRef` holds at most the most recently armed approval timer; an
  armed timer is modelled as `some agentId` (the agent id captured by the
  `setTimeout` callback closure).  Firing or `clearTimeout` empties the
  slot; a fired timer cannot fire again and clearing a spent timer is a
  no-op, which the `Option` model reflects.
* External effects with no state feedback (toasts, `console.error`, the
  request bodies sent to the backend) are not modelled; the outcomes of the
  external calls that do feed back into the state are supplied as explicit
  environment parameters (`InvokerOutcome`, the analysis data, call ids,
  clock values, durations).
-/

/-- `AgentType` of `src/types/zerotouch.ts`. -/
inductive AgentType where
  | sentinel
  | simulator
  | negotiator
  | executor
  | audit
deriving DecidableEq, Repr

/-- `AgentStatus` of `src/types/zerotouch.ts`. -/
inductive AgentStatus where
  | idle
  | processing
  | success
  | error
  | waiting
deriving DecidableEq, Repr

/-- Status field of `ToolCall` in `src/types/zerotouch.ts`. -/
inductive ToolCallStatus where
  | pending
  | success
  | error
deriving DecidableEq, Repr

/-- Status field of `ApprovalRequest` in `src/types/zerotouch.ts`. -/
inductive ApprovalStatus where
  | pending
  | approved
  | rejected
  | timeout
deriving DecidableEq, Repr

/-- Status field of `PortData` in `src/types/zerotouch.ts`. -/
inductive PortStatus where
  | normal
  | congested
  | strike
  | reroute
deriving DecidableEq, Repr

/-- JSON-like values, modelling the `Record<string, any>` parameters and
results carried by tool calls. -/
inductive JsonVal where
  | null
  | bool (b : Bool)
  | num (q : ℚ)
  | str (s : String)
  | arr (elems : List JsonVal)
  | obj (fields : List (String × JsonVal))

/-- `Agent` of `src/types/zerotouch.ts`.  `confidence` and `lastUpdate` are
optional fields of the source interface. -/
structure Agent where
  id : String
  name : String
  type : AgentType
  status : AgentStatus
  description : String
  tools : List String
  confidence : Option ℚ
  lastUpdate : Option ℕ
deriving DecidableEq, Repr

/-- `ToolCall` of `src/types/zerotouch.ts`. -/
structure ToolCall where
  id : String
  agentId : String
  toolName : String
  parameters : JsonVal
  result : Option JsonVal
  timestamp : ℕ
  duration : Option ℕ
  status : ToolCallStatus

/-- `PortData` of `src/types/zerotouch.ts`. -/
structure PortData where
  name : String
  code : String
  coordinates : ℚ × ℚ
  status : PortStatus
  containers : ℕ
  congestionScore : Option ℚ
  craneActivity : Option String
deriving DecidableEq, Repr

/-- `RouteOption` of `src/types/zerotouch.ts`. -/
structure RouteOption where
  fromPort : String
  toPort : String
  cost : ℚ
  delay : ℚ
  carbonImpact : ℚ
  probability : ℚ
deriving DecidableEq, Repr, Inhabited

/-- `ApprovalRequest` of `src/types/zerotouch.ts` (the optional `data` field
is never set by the hook and is omitted). -/
structure ApprovalRequest where
  id : String
  message : String
  requestedBy : String
  timestamp : ℕ
  timeout : ℕ
  status : ApprovalStatus
deriving DecidableEq, Repr

/-- The `metrics` record nested in `WorkflowState`. -/
structure WorkflowMetrics where
  costSavings : ℚ
  carbonReduction : ℚ
  humanLaborSaved : ℚ
  timeToResolution : ℚ
deriving DecidableEq, Repr

/-- `WorkflowState` of `src/types/zerotouch.ts`, restricted to the fields the
hook reads or writes (the optional `simulation`, `negotiation` and
`blockchain` fields are never touched by the hook and are omitted). -/
structure WorkflowState where
  currentStep : ℕ
  totalSteps : ℕ
  isRunning : Bool
  startTime : Option ℕ
  endTime : Option ℕ
  agents : List Agent
  toolCalls : List ToolCall
  ports : List PortData
  metrics : WorkflowMetrics

/-- One entry of the `WORKFLOW_STEPS` table of `src/data/mockData.ts`. -/
structure WorkflowStepDef where
  step : ℕ
  title : String
  description : String
  agent : AgentType
  tool : String
  expectedDuration : ℕ
deriving DecidableEq, Repr

/-- `MOCK_AGENTS` of `src/data/mockData.ts`. -/
def MOCK_AGENTS : List Agent :=
  [ { id := "sentinel-001", name := "Watchtower", type := .sentinel,
      status := .idle,
      description := "Real-time anomaly detection and threat monitoring",
      tools := ["analyze_satellite_imagery", "monitor_darkweb",
                "scan_iot_sensors", "detect_anomalies"],
      confidence := some 0, lastUpdate := none },
    { id := "simulator-001", name := "Oracle", type := .simulator,
      status := .idle,
      description := "Impact forecasting and scenario modeling",
      tools := ["run_monte_carlo", "calculate_carbon_impact",
                "forecast_demand", "analyze_alternatives"],
      confidence := some 0, lastUpdate := none },
    { id := "negotiator-001", name := "Diplomat", type := .negotiator,
      status := .idle,
      description := "Autonomous contracting and deal optimization",
      tools := ["negotiate_terms", "request_human_approval",
                "analyze_carrier_rates", "optimize_contracts"],
      confidence := some 0, lastUpdate := none },
    { id := "executor-001", name := "Commander", type := .executor,
      status := .idle,
      description := "System implementation and logistics execution",
      tools := ["reroute_shipments", "update_erp", "coordinate_carriers",
                "manage_inventory"],
      confidence := some 0, lastUpdate := none },
    { id := "audit-001", name := "Guardian", type := .audit,
      status := .idle,
      description := "Immutable verification and compliance logging",
      tools := ["log_to_blockchain", "generate_compliance_report",
                "verify_transactions", "audit_trail"],
      confidence := some 0, lastUpdate := none } ]

/-- `MOCK_PORTS` of `src/data/mockData.ts`. -/
def MOCK_PORTS : List PortData :=
  [ { name := "Port of Los Angeles", code := "LAX",
      coordinates := (337/10, -1182/10), status := .normal,
      containers := 420, congestionScore := some (15/100),
      craneActivity := some "high" },
    { name := "Port of Oakland", code := "OAK",
      coordinates := (378/10, -1223/10), status := .normal,
      containers := 180, congestionScore := some (5/100),
      craneActivity := some "medium" },
    { name := "Port of Vancouver", code := "VAN",
      coordinates := (493/10, -1231/10), status := .normal,
      containers := 240, congestionScore := some (8/100),
      craneActivity := some "medium" },
    { name := "Port of Seattle", code := "SEA",
      coordinates := (476/10, -1223/10), status := .normal,
      containers := 160, congestionScore := some (3/100),
      craneActivity := some "low" } ]

/-- `MOCK_ROUTES` of `src/data/mockData.ts`. -/
def MOCK_ROUTES : List RouteOption :=
  [ { fromPort := "LAX", toPort := "OAK", cost := 15200, delay := 48,
      carbonImpact := -42, probability := 89/100 },
    { fromPort := "LAX", toPort := "VAN", cost := 21800, delay := 72,
      carbonImpact := -58, probability := 76/100 },
    { fromPort := "LAX", toPort := "SEA", cost := 18900, delay := 56,
      carbonImpact := -35, probability := 82/100 } ]

/-- `WORKFLOW_STEPS` of `src/data/mockData.ts`. -/
def WORKFLOW_STEPS : List WorkflowStepDef :=
  [ { step := 1, title := "Threat Detection",
      description := "Sentinel detects LA port congestion via satellite imagery",
      agent := .sentinel, tool := "analyze_satellite_imagery",
      expectedDuration := 45 },
    { step := 2, title := "Impact Analysis",
      description := "Simulator runs Monte Carlo analysis for optimal routing",
      agent := .simulator, tool := "run_monte_carlo",
      expectedDuration := 30 },
    { step := 3, title := "Contract Negotiation",
      description := "Negotiator secures carrier capacity and terms",
      agent := .negotiator, tool := "negotiate_terms",
      expectedDuration := 45 },
    { step := 4, title := "Human Approval",
      description := "Request approval for rerouting decision",
      agent := .negotiator, tool := "request_human_approval",
      expectedDuration := 60 },
    { step := 5, title := "Execution",
      description := "Executor reroutes containers and updates systems",
      agent := .executor, tool := "reroute_shipments",
      expectedDuration := 30 },
    { step := 6, title := "Audit & Compliance",
      description := "Audit logs to blockchain and generates reports",
      agent := .audit, tool := "log_to_blockchain",
      expectedDuration := 20 } ]

/-- The whole observable state of one hook instance: the `useState` cell
holding the `WorkflowState`, the `useState` cell holding
`pendingApproval`, and the `timeoutRef` (an armed, not yet cancelled
approval timer, recorded as the agent id captured by its callback). -/
structure Sys where
  state : WorkflowState
  pendingApproval : Option ApprovalRequest
  timer : Option String

/-- The initializer object passed to `useState<WorkflowState>` (and reused
verbatim by `resetWorkflow`): step 0, not running, mock agents and ports,
empty tool-call log, zero metrics; `startTime` and `endTime` absent. -/
def initialWorkflowState : WorkflowState :=
  { currentStep := 0
    totalSteps := WORKFLOW_STEPS.length
    isRunning := false
    startTime := none
    endTime := none
    agents := MOCK_AGENTS
    toolCalls := []
    ports := MOCK_PORTS
    metrics := { costSavings := 0, carbonReduction := 0,
                 humanLaborSaved := 0, timeToResolution := 0 } }

/-- The state of a freshly mounted hook: initial workflow state, no pending
approval, no armed timer. -/
def initSys : Sys :=
  { state := initialWorkflowState, pendingApproval := none, timer := none }

/-- `updateAgent(agentId, updates)`: map over `agents`, merging `updates`
into the agent whose id matches.  The concrete `updates` object of each call
site is supplied as the merge function `f` (every call site keeps `id`
unchanged). -/
def updateAgent (agentId : String) (f : Agent → Agent) (s : Sys) : Sys :=
  { s with state := { s.state with
      agents := s.state.agents.map fun agent =>
        if agent.id = agentId then f agent else agent } }

/-- `addToolCall(toolCall)`: stamp the call with the current time and append
it to the log. -/
def addToolCall (tc : ToolCall) (now : ℕ) (s : Sys) : Sys :=
  { s with state := { s.state with
      toolCalls := s.state.toolCalls ++ [{ tc with timestamp := now }] } }

/-- `updateToolCall(id, updates)`: map over `toolCalls`, merging `updates`
into the call whose id matches. -/
def updateToolCall (id : String) (f : ToolCall → ToolCall) (s : Sys) : Sys :=
  { s with state := { s.state with
      toolCalls := s.state.toolCalls.map fun call =>
        if call.id = id then f call else call } }

/-- JSON encoding of a `RouteOption`, as the object literal serializes. -/
def routeJson (r : RouteOption) : JsonVal :=
  .obj [("fromPort", .str r.fromPort), ("toPort", .str r.toPort),
        ("cost", .num r.cost), ("delay", .num r.delay),
        ("carbonImpact", .num r.carbonImpact),
        ("probability", .num r.probability)]

/-- `getMockResultForTool(toolName)` of `useZeroTouchWorkflow.ts`: the
deterministic fallback table, a pure function of the tool name.
`MOCK_ROUTES[0]` is the first entry of the routes table. -/
def getMockResultForTool (toolName : String) : JsonVal :=
  if toolName = "analyze_satellite_imagery" then
    .obj [("congestion_score", .num (92/100)), ("crane_activity", .str "low"),
          ("confidence", .num (89/100)), ("containers_detected", .num 420),
          ("strike_indicators", .bool true)]
  else if toolName = "run_monte_carlo" then
    .obj [("optimal_route", routeJson (MOCK_ROUTES.headI)),
          ("cost_savings", .num 2100000),
          ("delay_analysis", .obj [("expected", .num 48), ("variance", .num 12)]),
          ("scenarios_tested", .num 10000), ("confidence", .num (87/100))]
  else if toolName = "negotiate_terms" then
    .obj [("carrier", .str "Maersk"), ("original_rate", .num 17000),
          ("negotiated_rate", .num 15200), ("discount", .num (12/100)),
          ("terms", .arr [.str "Priority loading", .str "48h SLA",
                          .str "Real-time tracking"]),
          ("success", .bool true)]
  else if toolName = "reroute_shipments" then
    .obj [("rerouted_containers", .arr [.str "CTN-7843", .str "CTN-7844",
                                        .str "CTN-7845"]),
          ("destination", .str "Port of Oakland"),
          ("eta", .str "2024-07-22T14:30:00Z"),
          ("tracking_ids", .arr [.str "TRK-001", .str "TRK-002",
                                 .str "TRK-003"])]
  else if toolName = "log_to_blockchain" then
    .obj [("transaction_hash",
           .str "0x89b2f3e8c1d4a567890123456789abcdef123456"),
          ("block_number", .num 18745623), ("gas_used", .num 52341),
          ("confirmed", .bool true)]
  else
    .obj [("success", .bool true), ("data", .obj [])]

/-- JavaScript truthiness of `result && typeof result === 'object'`: a
non-null object or array is kept, everything else triggers the mock
fallback. -/
def jsIsObject : JsonVal → Bool
  | .obj _ => true
  | .arr _ => true
  | _ => false

/-- First field of an object with the given key, `undefined` otherwise. -/
def JsonVal.get (j : JsonVal) (key : String) : Option JsonVal :=
  match j with
  | .obj fields => (fields.find? fun f => f.1 = key).map (·.2)
  | _ => none

/-- `result.confidence || d`: the numeric `confidence` field when present
and truthy (a number is falsy exactly when it is 0), the default `d`
otherwise. -/
def jsConfidenceOr (result : JsonVal) (d : ℚ) : ℚ :=
  match result.get "confidence" with
  | some (.num q) => if q = 0 then d else q
  | _ => d

/-- Outcome of the external `supabase.functions.invoke('launch-io-agents')`
call: either the `data.result` payload from a non-error response, or an
error (network error, non-2xx, or an `error` field), which the hook turns
into a thrown exception caught by its `catch` block. -/
inductive InvokerOutcome where
  | ok (result : JsonVal)
  | error

/-- First half of `callLaunchIOAgent`, before the `await`: append a pending
`ToolCall` and set the agent to `processing`. -/
def invocationStart (agentId toolName : String) (params : JsonVal)
    (callId : String) (now : ℕ) (s : Sys) : Sys :=
  updateAgent agentId (fun a => { a with status := .processing })
    (addToolCall
      { id := callId, agentId := agentId, toolName := toolName,
        parameters := params, result := none, timestamp := 0,
        duration := none, status := .pending } now s)

/-- Second half of `callLaunchIOAgent`, from the `await` settling onwards.
On a non-error response the payload is kept when it is an object and
replaced by the mock otherwise; the tool call is marked success with the
measured duration and the agent gets `confidence || 0.85`.  On error the
`catch` block substitutes the mock result, still marks the tool call
success with duration 2000 to keep the demo working, and the agent gets
`confidence || 0.75`. -/
def invocationSettle (agentId toolName callId : String)
    (outcome : InvokerOutcome) (duration : ℕ) (now : ℕ) (s : Sys) : Sys :=
  match outcome with
  | .ok data =>
      let result := if jsIsObject data then data
                    else getMockResultForTool toolName
      updateAgent agentId
        (fun a => { a with status := .success,
                           confidence := some (jsConfidenceOr result (85/100)),
                           lastUpdate := some now })
        (updateToolCall callId
          (fun c => { c with result := some result, status := .success,
                             duration := some duration }) s)
  | .error =>
      let mockResult := getMockResultForTool toolName
      updateAgent agentId
        (fun a => { a with status := .success,
                           confidence := some (jsConfidenceOr mockResult (75/100)),
                           lastUpdate := some now })
        (updateToolCall callId
          (fun c => { c with result := some mockResult, status := .success,
                             duration := some 2000 }) s)

/-- `callLaunchIOAgent(agentId, agentType, toolName, parameters)`: record a
pending call, set the agent processing, await the backend, then settle.
The generated call id, the invocation outcome, its duration and the clock
are environment inputs. -/
def callLaunchIOAgent (agentId : String) (_agentType : AgentType)
    (toolName : String) (params : JsonVal) (callId : String)
    (outcome : InvokerOutcome) (duration : ℕ) (now : ℕ) (s : Sys) : Sys :=
  invocationSettle agentId toolName callId outcome duration now
    (invocationStart agentId toolName params callId now s)

/-- The parameters object built by `executeStep` for `callLaunchIOAgent`;
keys whose ternary yields `undefined` are omitted. -/
def stepParams (agentType : AgentType) : JsonVal :=
  match agentType with
  | .sentinel => .obj [("coordinates", .str "33.7°N, 118.2°W")]
  | .simulator => .obj [("containers", .num 150)]
  | .negotiator => .obj [("carrier", .str "Maersk")]
  | .executor => .obj [("container_ids", .arr [.str "CTN-7843"])]
  | .audit => .obj [("action", .obj [("type", .str "reroute"),
                                     ("data", .str "container logistics")])]

/-- Per-step environment inputs consumed by `executeStep`: the outcome of
the external invocation, the generated call id, the clock value and the
measured call duration. -/
structure StepEnv where
  outcome : InvokerOutcome
  callId : String
  now : ℕ
  duration : ℕ

/-- The `setTimeout` callback armed by the approval step (`// Auto-decline
after timeout`): mark the pending approval as timed out (if one is still
there), set the requesting agent to `error`, and spend the timer.  When no
timer is armed (or it was cleared) nothing fires. -/
def timeoutFire (s : Sys) : Sys :=
  match s.timer with
  | none => s
  | some agentId =>
      updateAgent agentId (fun a => { a with status := .error })
        { s with
          pendingApproval :=
            s.pendingApproval.map fun r => { r with status := .timeout },
          timer := none }

/-- `executeStep(stepIndex)`: look up the step and its agent (guard-return
when absent), advance `currentStep`, then either open the approval gate
(create a pending `ApprovalRequest`, set the agent `waiting`, arm the
5-minute auto-decline timer, and return without invoking) or run the tool
call and apply the metrics updates bound to step indices 1 and 4. -/
def executeStep (env : StepEnv) (stepIndex : ℕ) (s : Sys) : Sys :=
  match WORKFLOW_STEPS.get? stepIndex with
  | none => s
  | some step =>
    match s.state.agents.find? (fun a => a.type = step.agent) with
    | none => s
    | some agent =>
      let s := { s with state := { s.state with currentStep := stepIndex + 1 } }
      if step.tool = "request_human_approval" then
        let approvalRequest : ApprovalRequest :=
          { id := "approval-" ++ toString env.now,
            message := "Approve Oakland reroute for 150 containers?",
            requestedBy := agent.id, timestamp := env.now,
            timeout := 300000, status := .pending }
        let s := { s with pendingApproval := some approvalRequest }
        let s := updateAgent agent.id (fun a => { a with status := .waiting }) s
        { s with timer := some agent.id }
      else
        let s := callLaunchIOAgent agent.id step.agent step.tool
          (stepParams step.agent) env.callId env.outcome env.duration env.now s
        let s := if stepIndex = 1 then
            { s with state := { s.state with metrics :=
                { s.state.metrics with costSavings := 2100000,
                                       carbonReduction := 42 } } }
          else s
        if stepIndex = 4 then
          { s with state := { s.state with metrics :=
              { s.state.metrics with humanLaborSaved := 187/10 } } }
        else s

/-- The completion block shared verbatim by the tail of `startWorkflow` and
the approved branch of `handleApproval`: stop running, stamp `endTime`, and
set `timeToResolution` to the literal constant `4.2`. -/
def completeWorkflow (endNow : ℕ) (s : Sys) : Sys :=
  { s with state := { s.state with
      isRunning := false,
      endTime := some endNow,
      metrics := { s.state.metrics with timeToResolution := 42/10 } } }

/-- The `for` loop of `startWorkflow` over the remaining step indices,
returning the final state together with the list of indices on which
`executeStep` was invoked.  After each step the loop checks the static
`WORKFLOW_STEPS` table: on the approval step it returns at once (the run
is continued by `handleApproval`); otherwise it sleeps 1500 ms (no
observable state effect) and continues.  When the indices are exhausted
the completion block runs. -/
def startLoop (envs : ℕ → StepEnv) (endNow : ℕ) :
    List ℕ → Sys → Sys × List ℕ
  | [], s => (completeWorkflow endNow s, [])
  | i :: rest, s =>
    let s1 := executeStep (envs i) i s
    match WORKFLOW_STEPS.get? i with
    | some step =>
        if step.tool = "request_human_approval" then (s1, [i])
        else
          match startLoop envs endNow rest s1 with
          | (s2, trace) => (s2, i :: trace)
    | none =>
        match startLoop envs endNow rest s1 with
        | (s2, trace) => (s2, i :: trace)

/-- Data extracted from the `ai-crisis-analyzer` response when the call
succeeds and carries an `analysis` object: the optional
`recommendations?.[0]?.expected_savings` chain. -/
structure AnalysisData where
  expectedSavings : Option ℚ

/-- `x || 0` on the optional numeric chain: the value when present and
truthy, `0` otherwise. -/
def jsNumOrZero : Option ℚ → ℚ
  | some q => if q = 0 then 0 else q
  | none => 0

/-- The part of `startWorkflow` that runs before the step loop: the initial
`setState` (running, fresh `startTime`, step 0, cleared tool calls, all
agents reset to idle with confidence 0), the LAX-to-strike port update, the
fire-and-forget backend workflow initialization (no state effect), and the
metrics update applied when the crisis-analyzer call returns an analysis.
Note that neither `pendingApproval` nor the timer ref is touched here. -/
def startInit (startNow : ℕ) (analysis : Option AnalysisData) (s : Sys) : Sys :=
  let s := { s with state := { s.state with
      isRunning := true,
      startTime := some startNow,
      currentStep := 0,
      toolCalls := [],
      agents := MOCK_AGENTS.map fun (agent : Agent) =>
        { agent with status := .idle, confidence := some 0 } } }
  let s := { s with state := { s.state with
      ports := s.state.ports.map fun (port : PortData) =>
        if port.code = "LAX" then
          { port with status := .strike, congestionScore := some (92/100) }
        else port } }
  match analysis with
  | some a =>
      { s with state := { s.state with metrics :=
          { s.state.metrics with
            costSavings := jsNumOrZero a.expectedSavings,
            carbonReduction := 42 } } }
  | none => s

/-- `startWorkflow()`: initialize, then run the step loop over indices
`0 ≤ i < WORKFLOW_STEPS.length`; also returns the executed-index trace. -/
def startWorkflowT (startNow : ℕ) (analysis : Option AnalysisData)
    (envs : ℕ → StepEnv) (endNow : ℕ) (s : Sys) : Sys × List ℕ :=
  startLoop envs endNow (List.range WORKFLOW_STEPS.length)
    (startInit startNow analysis s)

/-- `startWorkflow()` restricted to its state effect. -/
def startWorkflow (startNow : ℕ) (analysis : Option AnalysisData)
    (envs : ℕ → StepEnv) (endNow : ℕ) (s : Sys) : Sys :=
  (startWorkflowT startNow analysis envs endNow s).1

/-- The resume loop of `handleApproval`: `for (let i = 4; i < length; i++)`
with no approval check, followed by the completion block. -/
def resumeLoop (envs : ℕ → StepEnv) (endNow : ℕ) :
    List ℕ → Sys → Sys × List ℕ
  | [], s => (completeWorkflow endNow s, [])
  | i :: rest, s =>
    match resumeLoop envs endNow rest (executeStep (envs i) i s) with
    | (s2, trace) => (s2, i :: trace)

/-- `handleApproval(approved)`: guard-return when no approval is pending;
otherwise clear the timeout timer, set the requesting agent (looked up by
id) to success or error, clear the pending approval, and either resume the
loop at index 4 and complete, or stop the run.  Also returns the
executed-index trace of the resume loop. -/
def handleApprovalT (envs : ℕ → StepEnv) (endNow : ℕ) (approved : Bool)
    (s : Sys) : Sys × List ℕ :=
  match s.pendingApproval with
  | none => (s, [])
  | some pendingApproval =>
    let s := { s with timer := none }
    let s :=
      match s.state.agents.find? (fun a => a.id = pendingApproval.requestedBy) with
      | some agent =>
          updateAgent agent.id
            (fun a => { a with status := if approved then .success else .error }) s
      | none => s
    let s := { s with pendingApproval := none }
    if approved then
      resumeLoop envs endNow
        (List.range' 4 (WORKFLOW_STEPS.length - 4)) s
    else
      ({ s with state := { s.state with isRunning := false,
                                        endTime := some endNow } }, [])

/-- `handleApproval(approved)` restricted to its state effect. -/
def handleApproval (envs : ℕ → StepEnv) (endNow : ℕ) (approved : Bool)
    (s : Sys) : Sys :=
  (handleApprovalT envs endNow approved s).1

/-- `resetWorkflow()`: clear any armed timeout timer, restore the literal
initial `WorkflowState` object, and clear the pending approval. -/
def resetWorkflow (_s : Sys) : Sys :=
  { state := initialWorkflowState, pendingApproval := none, timer := none }

/-- A concrete test environment for whole runs: every external invocation
fails (backend unreachable), generated call ids c0..c5, clock stuck at 0,
measured duration 0. -/
def failEnvs : ℕ → StepEnv := fun i =>
  { outcome := .error, callId := "c" ++ toString i, now := 0, duration := 0 }

/-- The state reached by `startWorkflow` from a fresh mount when every
invocation fails: steps 0 to 2 completed with fallback results, the
approval request pending, the auto-decline timer armed. -/
def approvalReached : Sys := startWorkflow 0 none failEnvs 0 initSys

/-- `approvalReached` after the approval timeout has fired. -/
def timedOut : Sys := timeoutFire approvalReached

/-! ### Basic preservation lemmas -/

theorem updateAgent_pendingApproval (aid : String) (f : Agent → Agent) (s : Sys) :
    (updateAgent aid f s).pendingApproval = s.pendingApproval := rfl

theorem updateAgent_timer (aid : String) (f : Agent → Agent) (s : Sys) :
    (updateAgent aid f s).timer = s.timer := rfl

theorem updateAgent_isRunning (aid : String) (f : Agent → Agent) (s : Sys) :
    (updateAgent aid f s).state.isRunning = s.state.isRunning := rfl

theorem invocationSettle_pendingApproval (aid tool cid : String)
    (o : InvokerOutcome) (d n : ℕ) (s : Sys) :
    (invocationSettle aid tool cid o d n s).pendingApproval = s.pendingApproval := by
  cases o <;> rfl

theorem invocationSettle_timer (aid tool cid : String)
    (o : InvokerOutcome) (d n : ℕ) (s : Sys) :
    (invocationSettle aid tool cid o d n s).timer = s.timer := by
  cases o <;> rfl

theorem invocationSettle_isRunning (aid tool cid : String)
    (o : InvokerOutcome) (d n : ℕ) (s : Sys) :
    (invocationSettle aid tool cid o d n s).state.isRunning = s.state.isRunning := by
  cases o <;> rfl

theorem callLaunchIOAgent_pendingApproval (aid : String) (t : AgentType)
    (tool : String) (p : JsonVal) (cid : String) (o : InvokerOutcome)
    (d n : ℕ) (s : Sys) :
    (callLaunchIOAgent aid t tool p cid o d n s).pendingApproval
      = s.pendingApproval := by
  cases o <;> rfl

theorem callLaunchIOAgent_timer (aid : String) (t : AgentType)
    (tool : String) (p : JsonVal) (cid : String) (o : InvokerOutcome)
    (d n : ℕ) (s : Sys) :
    (callLaunchIOAgent aid t tool p cid o d n s).timer = s.timer := by
  cases o <;> rfl

theorem callLaunchIOAgent_isRunning (aid : String) (t : AgentType)
    (tool : String) (p : JsonVal) (cid : String) (o : InvokerOutcome)
    (d n : ℕ) (s : Sys) :
    (callLaunchIOAgent aid t tool p cid o d n s).state.isRunning
      = s.state.isRunning := by
  cases o <;> rfl

/-! ### Lemmas about agent lookup through updates -/

theorem find?_id_update (l : List Agent) (aid : String) (g : Agent → Agent)
    (hid : ∀ a, (g a).id = a.id) :
    (l.map fun a => if a.id = aid then g a else a).find?
        (fun a => a.id = aid)
      = (l.find? fun a => a.id = aid).map
          (fun a => if a.id = aid then g a else a) := by
  induction l with
  | nil => rfl
  | cons b t ih =>
    by_cases hb : b.id = aid
    · simp only [List.map_cons]
      rw [List.find?_cons_of_pos _ (by simp [hb, hid]),
          List.find?_cons_of_pos _ (by simp [hb])]
      simp
    · simp only [List.map_cons]
      rw [List.find?_cons_of_neg _ (by simp [hb, hid]),
          List.find?_cons_of_neg _ (by simp [hb]), ih]

theorem updateAgent_find?_status (aid : String) (g : Agent → Agent) (s : Sys)
    (v : AgentStatus) (hid : ∀ a, (g a).id = a.id)
    (hst : ∀ a, (g a).status = v)
    (hsome : (s.state.agents.find? fun a => a.id = aid).isSome) :
    ((updateAgent aid g s).state.agents.find? (fun a => a.id = aid)).map
        (fun a => a.status) = some v := by
  obtain ⟨a, ha⟩ := Option.isSome_iff_exists.mp hsome
  have haid : a.id = aid := by
    have := List.find?_some ha
    simpa using this
  show ((s.state.agents.map fun a => if a.id = aid then g a else a).find?
      (fun a => a.id = aid)).map (fun a => a.status) = some v
  rw [find?_id_update _ _ _ hid, ha]
  simp [haid, hst]

theorem updateAgent_find?_isSome (aid : String) (g : Agent → Agent) (s : Sys)
    (hid : ∀ a, (g a).id = a.id)
    (hsome : (s.state.agents.find? fun a => a.id = aid).isSome) :
    ((updateAgent aid g s).state.agents.find? fun a => a.id = aid).isSome := by
  show ((s.state.agents.map fun a => if a.id = aid then g a else a).find?
      (fun a => a.id = aid)).isSome
  rw [find?_id_update _ _ _ hid]
  simpa using hsome

/-! ### Agent skeletons: the id/type projection, invariant across a run -/

/-- The stable projection of the agent list: ids and roles.  Every
`updateAgent` call site of the hook merges only status, confidence and
lastUpdate, so this projection never changes during a run. -/
def agentSkeleton (l : List Agent) : List (String × AgentType) :=
  l.map fun a => (a.id, a.type)

theorem agentSkeleton_update (l : List Agent) (aid : String)
    (g : Agent → Agent) (hid : ∀ a, (g a).id = a.id)
    (hty : ∀ a, (g a).type = a.type) :
    agentSkeleton (l.map fun a => if a.id = aid then g a else a)
      = agentSkeleton l := by
  unfold agentSkeleton
  rw [List.map_map]
  apply List.map_congr_left
  intro a _
  by_cases h : a.id = aid <;> simp [h, hid, hty]

theorem updateAgent_skeleton (aid : String) (g : Agent → Agent) (s : Sys)
    (hid : ∀ a, (g a).id = a.id) (hty : ∀ a, (g a).type = a.type) :
    agentSkeleton (updateAgent aid g s).state.agents
      = agentSkeleton s.state.agents :=
  agentSkeleton_update _ _ _ hid hty

/-- Looking an agent up by role only depends on the skeleton. -/
theorem find?_type_id (l : List Agent) (t : AgentType) :
    ((l.find? fun a => a.type = t).map fun a => a.id)
      = (((agentSkeleton l).find? fun p => p.2 = t).map fun p => p.1) := by
  induction l with
  | nil => rfl
  | cons b r ih =>
    by_cases hb : b.type = t
    · rw [List.find?_cons_of_pos _ (by simp [hb])]
      unfold agentSkeleton
      rw [List.map_cons, List.find?_cons_of_pos _ (by simp [hb])]
      simp
    · rw [List.find?_cons_of_neg _ (by simp [hb])]
      unfold agentSkeleton
      rw [List.map_cons, List.find?_cons_of_neg _ (by simp [hb])]
      exact ih

theorem invocationSettle_skeleton (aid tool cid : String)
    (o : InvokerOutcome) (d n : ℕ) (s : Sys) :
    agentSkeleton (invocationSettle aid tool cid o d n s).state.agents
      = agentSkeleton s.state.agents := by
  cases o <;>
    exact agentSkeleton_update _ _ _ (fun a => rfl) (fun a => rfl)

theorem callLaunchIOAgent_skeleton (aid : String) (t : AgentType)
    (tool : String) (p : JsonVal) (cid : String) (o : InvokerOutcome)
    (d n : ℕ) (s : Sys) :
    agentSkeleton (callLaunchIOAgent aid t tool p cid o d n s).state.agents
      = agentSkeleton s.state.agents := by
  unfold callLaunchIOAgent
  rw [invocationSettle_skeleton]
  exact agentSkeleton_update _ _ _ (fun a => rfl) (fun a => rfl)


/-! ### executeStep-level lemmas -/

theorem executeStep_isRunning (env : StepEnv) (i : ℕ) (s : Sys) :
    (executeStep env i s).state.isRunning = s.state.isRunning := by
  unfold executeStep
  split
  · rfl
  · split
    · rfl
    · split
      · rfl
      · split <;> split <;> simp [callLaunchIOAgent_isRunning]

theorem executeStep_skeleton (env : StepEnv) (i : ℕ) (s : Sys) :
    agentSkeleton (executeStep env i s).state.agents
      = agentSkeleton s.state.agents := by
  unfold executeStep
  split
  · rfl
  · split
    · rfl
    · split
      · exact agentSkeleton_update _ _ _ (fun a => rfl) (fun a => rfl)
      · split <;> split <;> simp [callLaunchIOAgent_skeleton]

theorem executeStep_nonapproval_pendingApproval (env : StepEnv) (i : ℕ)
    (s : Sys) (st : WorkflowStepDef) (hg : WORKFLOW_STEPS.get? i = some st)
    (ht : ¬ st.tool = "request_human_approval") :
    (executeStep env i s).pendingApproval = s.pendingApproval := by
  unfold executeStep
  split
  · rfl
  next x step heq =>
    split
    · rfl
    next y agent hagent =>
      rw [hg] at heq
      injection heq with hst
      subst hst
      rw [if_neg ht]
      split <;> split <;> simp [callLaunchIOAgent_pendingApproval]

theorem executeStep_nonapproval_timer (env : StepEnv) (i : ℕ)
    (s : Sys) (st : WorkflowStepDef) (hg : WORKFLOW_STEPS.get? i = some st)
    (ht : ¬ st.tool = "request_human_approval") :
    (executeStep env i s).timer = s.timer := by
  unfold executeStep
  split
  · rfl
  next x step heq =>
    split
    · rfl
    next y agent hagent =>
      rw [hg] at heq
      injection heq with hst
      subst hst
      rw [if_neg ht]
      split <;> split <;> simp [callLaunchIOAgent_timer]

/-! ### The approval step, startInit and the loop equations -/

theorem executeStep_approval_opens (env : StepEnv) (s : Sys) (a : Agent)
    (hf : s.state.agents.find? (fun x => x.type = AgentType.negotiator)
            = some a) :
    (executeStep env 3 s).pendingApproval = some
        { id := "approval-" ++ toString env.now,
          message := "Approve Oakland reroute for 150 containers?",
          requestedBy := a.id, timestamp := env.now,
          timeout := 300000, status := .pending }
      ∧ (executeStep env 3 s).timer = some a.id := by
  unfold executeStep
  split
  next heq => exact absurd heq (by decide)
  next x step heq =>
    have hstep : step =
        { step := 4, title := "Human Approval",
          description := "Request approval for rerouting decision",
          agent := .negotiator, tool := "request_human_approval",
          expectedDuration := 60 } := by
      have h3 : WORKFLOW_STEPS.get? 3 = some
          { step := 4, title := "Human Approval",
            description := "Request approval for rerouting decision",
            agent := .negotiator, tool := "request_human_approval",
            expectedDuration := 60 } := by decide
      rw [h3] at heq
      injection heq with h
      exact h.symm
    subst hstep
    split
    next heq2 =>
      have hf2 : s.state.agents.find?
          (fun x => x.type = AgentType.negotiator) = none := heq2
      rw [hf] at hf2
      exact absurd hf2 (by simp)
    next y agent heq2 =>
      have hf2 : s.state.agents.find?
          (fun x => x.type = AgentType.negotiator) = some agent := heq2
      rw [hf] at hf2
      injection hf2 with h
      subst h
      rw [if_pos rfl]
      exact ⟨rfl, rfl⟩

theorem startInit_isRunning (n : ℕ) (a : Option AnalysisData) (s : Sys) :
    (startInit n a s).state.isRunning = true := by
  cases a <;> rfl

theorem startInit_startTime (n : ℕ) (a : Option AnalysisData) (s : Sys) :
    (startInit n a s).state.startTime = some n := by
  cases a <;> rfl

theorem startInit_currentStep (n : ℕ) (a : Option AnalysisData) (s : Sys) :
    (startInit n a s).state.currentStep = 0 := by
  cases a <;> rfl

theorem startInit_toolCalls (n : ℕ) (a : Option AnalysisData) (s : Sys) :
    (startInit n a s).state.toolCalls = [] := by
  cases a <;> rfl

theorem startInit_pendingApproval (n : ℕ) (a : Option AnalysisData) (s : Sys) :
    (startInit n a s).pendingApproval = s.pendingApproval := by
  cases a <;> rfl

theorem startInit_timer (n : ℕ) (a : Option AnalysisData) (s : Sys) :
    (startInit n a s).timer = s.timer := by
  cases a <;> rfl

theorem startInit_agents (n : ℕ) (a : Option AnalysisData) (s : Sys) :
    (startInit n a s).state.agents
      = MOCK_AGENTS.map fun agent =>
          { agent with status := .idle, confidence := some 0 } := by
  cases a <;> rfl

theorem startInit_skeleton (n : ℕ) (a : Option AnalysisData) (s : Sys) :
    agentSkeleton (startInit n a s).state.agents
      = agentSkeleton MOCK_AGENTS := by
  rw [startInit_agents]
  rfl

theorem startWorkflowT_eq (n : ℕ) (a : Option AnalysisData)
    (envs : ℕ → StepEnv) (e : ℕ) (s : Sys) :
    startWorkflowT n a envs e s =
      (executeStep (envs 3) 3 (executeStep (envs 2) 2 (executeStep (envs 1) 1
        (executeStep (envs 0) 0 (startInit n a s)))), [0, 1, 2, 3]) := rfl

theorem resumeLoop_eq (envs : ℕ → StepEnv) (e : ℕ) (s : Sys) :
    resumeLoop envs e (List.range' 4 (WORKFLOW_STEPS.length - 4)) s
      = (completeWorkflow e (executeStep (envs 5) 5 (executeStep (envs 4) 4 s)),
         [4, 5]) := rfl

theorem completeWorkflow_pendingApproval (e : ℕ) (s : Sys) :
    (completeWorkflow e s).pendingApproval = s.pendingApproval := rfl

theorem completeWorkflow_timer (e : ℕ) (s : Sys) :
    (completeWorkflow e s).timer = s.timer := rfl

theorem executeStep4_pendingApproval (env : StepEnv) (s : Sys) :
    (executeStep env 4 s).pendingApproval = s.pendingApproval :=
  executeStep_nonapproval_pendingApproval env 4 s
    { step := 5, title := "Execution",
      description := "Executor reroutes containers and updates systems",
      agent := .executor, tool := "reroute_shipments", expectedDuration := 30 }
    (by decide) (by decide)

theorem executeStep5_pendingApproval (env : StepEnv) (s : Sys) :
    (executeStep env 5 s).pendingApproval = s.pendingApproval :=
  executeStep_nonapproval_pendingApproval env 5 s
    { step := 6, title := "Audit & Compliance",
      description := "Audit logs to blockchain and generates reports",
      agent := .audit, tool := "log_to_blockchain", expectedDuration := 20 }
    (by decide) (by decide)

theorem executeStep4_timer (env : StepEnv) (s : Sys) :
    (executeStep env 4 s).timer = s.timer :=
  executeStep_nonapproval_timer env 4 s
    { step := 5, title := "Execution",
      description := "Executor reroutes containers and updates systems",
      agent := .executor, tool := "reroute_shipments", expectedDuration := 30 }
    (by decide) (by decide)

theorem executeStep5_timer (env : StepEnv) (s : Sys) :
    (executeStep env 5 s).timer = s.timer :=
  executeStep_nonapproval_timer env 5 s
    { step := 6, title := "Audit & Compliance",
      description := "Audit logs to blockchain and generates reports",
      agent := .audit, tool := "log_to_blockchain", expectedDuration := 20 }
    (by decide) (by decide)

/-- The approved resume path preserves the (cleared) approval cell and the
(cleared) timer: steps 4 and 5 are not the approval step and the completion
block touches neither. -/
theorem resume_pendingApproval_timer (envs : ℕ → StepEnv) (e : ℕ) (s : Sys) :
    (resumeLoop envs e (List.range' 4 (WORKFLOW_STEPS.length - 4)) s).1.pendingApproval
        = s.pendingApproval
      ∧ (resumeLoop envs e (List.range' 4 (WORKFLOW_STEPS.length - 4)) s).1.timer
        = s.timer := by
  rw [resumeLoop_eq]
  constructor
  · rw [completeWorkflow_pendingApproval, executeStep5_pendingApproval,
        executeStep4_pendingApproval]
  · rw [completeWorkflow_timer, executeStep5_timer, executeStep4_timer]

theorem timeoutFire_noop (s : Sys) (h : s.timer = none) : timeoutFire s = s := by
  unfold timeoutFire
  rw [h]

theorem handleApproval_noop (envs : ℕ → StepEnv) (e : ℕ) (b : Bool) (s : Sys)
    (h : s.pendingApproval = none) : handleApproval envs e b s = s := by
  unfold handleApproval handleApprovalT
  rw [h]

/-- Resolving a present approval (pending or already timed out) clears both
the approval cell and the timer, on the approved and the rejected path. -/
theorem handleApproval_resolved (envs : ℕ → StepEnv) (e : ℕ) (b : Bool)
    (s : Sys) (r : ApprovalRequest) (hp : s.pendingApproval = some r) :
    (handleApproval envs e b s).pendingApproval = none
      ∧ (handleApproval envs e b s).timer = none := by
  unfold handleApproval handleApprovalT
  split
  next heq => rw [hp] at heq; cases heq
  next pa heq =>
    cases b with
    | false =>
      rw [if_neg (by simp : ¬ (false = true))]
      constructor
      · rfl
      · dsimp only
        split <;> rfl
    | true =>
      rw [if_pos rfl]
      dsimp only
      constructor
      · rw [(resume_pendingApproval_timer envs e _).1]
      · rw [(resume_pendingApproval_timer envs e _).2]
        split <;> rfl

/-! ### Claim theorems -/

/-- C5: calling reset() from any state, including while an approval is
pending, yields a state with the run not running (idle, step 0), an empty
ToolCall list, no ApprovalRequest, and every one of the five Agents with
status idle and confidence 0. -/
theorem c5_reset_state (s : Sys) :
    (resetWorkflow s).state.isRunning = false
      ∧ (resetWorkflow s).state.currentStep = 0
      ∧ (resetWorkflow s).state.toolCalls = []
      ∧ (resetWorkflow s).pendingApproval = none
      ∧ (resetWorkflow s).state.agents.length = 5
      ∧ ((resetWorkflow s).state.agents.all fun a =>
          a.status == .idle && a.confidence == some (0 : ℚ)) = true := by
  have h : (MOCK_AGENTS.all fun a =>
      a.status == .idle && a.confidence == some (0 : ℚ)) = true := by
    decide
  exact ⟨rfl, rfl, rfl, rfl, rfl, h⟩

/-- C9: reset() is idempotent: for every starting state, calling reset()
twice in a row produces exactly the same observable state as calling it
once. -/
theorem c9_reset_idempotent (s : Sys) :
    resetWorkflow (resetWorkflow s) = resetWorkflow s := rfl

/-- C10: calling the decide operation (handleApproval, with either true or
false) when no ApprovalRequest is pending returns immediately and leaves
the entire state (run status, Agents, ToolCalls, Metrics, timer) unchanged. -/
theorem c10_decide_without_pending_noop (envs : ℕ → StepEnv) (e : ℕ)
    (b : Bool) (s : Sys) (h : s.pendingApproval = none) :
    handleApproval envs e b s = s :=
  handleApproval_noop envs e b s h

/-- Witness for C10 at a concrete input: on the freshly mounted state,
where no approval is pending, a decide call changes nothing. -/
theorem c10_decide_without_pending_noop_witness :
    handleApproval failEnvs 0 true initSys = initSys :=
  c10_decide_without_pending_noop failEnvs 0 true initSys rfl

/-- C8 (amended): reset() clears the approval timer (so the timeout can no
longer fire) and a stale ToolCall update is dropped (its call id is gone
from the cleared log), but a late-arriving invocation settlement still
mutates the reset state: it sets the agent with the captured id back to
status success.  There is no run/generation tagging. -/
theorem c8_stale_settlement (s : Sys) (toolName cid : String)
    (outcome : InvokerOutcome) (d n : ℕ) :
    (invocationSettle "sentinel-001" toolName cid outcome d n
        (resetWorkflow s)).state.toolCalls
        = (resetWorkflow s).state.toolCalls
      ∧ ((invocationSettle "sentinel-001" toolName cid outcome d n
          (resetWorkflow s)).state.agents.find?
            (fun x => x.id = "sentinel-001")).map (fun x => x.status)
        = some .success
      ∧ timeoutFire (resetWorkflow s) = resetWorkflow s := by
  refine ⟨?_, ?_, timeoutFire_noop _ rfl⟩
  · cases outcome <;> rfl
  · have hM : (MOCK_AGENTS.find? fun x => x.id = "sentinel-001").isSome := by
      decide
    cases outcome with
    | ok data =>
      exact updateAgent_find?_status _ _ _ .success (fun a => rfl)
        (fun a => rfl) hM
    | error =>
      exact updateAgent_find?_status _ _ _ .success (fun a => rfl)
        (fun a => rfl) hM

/-- Counterexample for C8: a stale invocation settlement arriving after
reset() mutates the reset state, flipping the sentinel agent from idle back
to success — stale responses are applied, not discarded. -/
theorem c8_stale_settlement_mutates_reset_state :
    (((resetWorkflow timedOut).state.agents.find?
        (fun x => x.id = "sentinel-001")).map fun x => x.status)
        = some .idle
      ∧ ((invocationSettle "sentinel-001" "analyze_satellite_imagery"
            "stale-1" .error 2000 7
            (resetWorkflow timedOut)).state.agents.find?
              (fun x => x.id = "sentinel-001")).map (fun x => x.status)
        = some .success := by
  constructor
  · decide
  · decide

/-- C7 (amended): startWorkflow() establishes a fresh running state — run
status running, fresh startTime, step counter 0, cleared ToolCall log, all
five agents reset to idle with confidence 0 — and begins execution at step
0; but it does NOT clear an existing ApprovalRequest: the approval cell is
left exactly as it was. -/
theorem c7_start_fresh_state (n : ℕ) (a : Option AnalysisData)
    (envs : ℕ → StepEnv) (e : ℕ) (s : Sys) :
    (startInit n a s).state.isRunning = true
      ∧ (startInit n a s).state.startTime = some n
      ∧ (startInit n a s).state.currentStep = 0
      ∧ (startInit n a s).state.toolCalls = []
      ∧ (startInit n a s).state.agents.length = 5
      ∧ ((startInit n a s).state.agents.all fun x =>
          x.status == .idle && x.confidence == some (0 : ℚ)) = true
      ∧ (startInit n a s).pendingApproval = s.pendingApproval
      ∧ (startWorkflowT n a envs e s).2.head? = some 0 := by
  refine ⟨startInit_isRunning n a s, startInit_startTime n a s,
    startInit_currentStep n a s, startInit_toolCalls n a s, ?_, ?_,
    startInit_pendingApproval n a s, ?_⟩
  · rw [startInit_agents]; rfl
  · rw [startInit_agents]; decide
  · rw [startWorkflowT_eq]
    rfl

/-- Counterexample for C7: starting a new run while a stale (timed out)
ApprovalRequest is still present does not clear it to none — the
initialization of startWorkflow leaves the approval cell untouched. -/
theorem c7_start_keeps_stale_approval :
    (timedOut.pendingApproval.map fun r => r.status) = some .timeout
      ∧ (startInit 5 none timedOut).pendingApproval
          = timedOut.pendingApproval
      ∧ (startInit 5 none timedOut).pendingApproval ≠ none := by
  refine ⟨by decide, startInit_pendingApproval 5 none timedOut, by decide⟩

/-- C2 (amended): when the approval timeout fires (armed timer, request
present), the ApprovalRequest status becomes timeout, the agent whose id the
timer captured becomes error, and the timer is spent — but the run flag
`isRunning` and the ToolCall log are left unchanged: the run is NOT marked
failed or stopped. -/
theorem c2_timeout_effects (s : Sys) (aid : String) (r : ApprovalRequest)
    (htimer : s.timer = some aid) (hp : s.pendingApproval = some r)
    (hsome : (s.state.agents.find? fun x => x.id = aid).isSome) :
    (timeoutFire s).pendingApproval = some { r with status := .timeout }
      ∧ ((timeoutFire s).state.agents.find? (fun x => x.id = aid)).map
          (fun x => x.status) = some .error
      ∧ (timeoutFire s).state.isRunning = s.state.isRunning
      ∧ (timeoutFire s).state.toolCalls = s.state.toolCalls
      ∧ (timeoutFire s).timer = none := by
  unfold timeoutFire
  split
  next heq => rw [htimer] at heq; cases heq
  next aid2 heq =>
    rw [htimer] at heq
    injection heq with h
    subst h
    refine ⟨?_, ?_, rfl, rfl, rfl⟩
    · show (s.pendingApproval.map fun q =>
          ({ q with status := .timeout } : ApprovalRequest))
        = some ({ r with status := .timeout } : ApprovalRequest)
      rw [hp]
      rfl
    · exact updateAgent_find?_status _ _ _ .error (fun x => rfl)
        (fun x => rfl) hsome

/-- Witness for C2 as amended, at the concrete reachable state where the
approval is pending and the timer armed. -/
theorem c2_timeout_effects_witness :
    (timeoutFire approvalReached).pendingApproval = some
        { id := "approval-0",
          message := "Approve Oakland reroute for 150 containers?",
          requestedBy := "negotiator-001", timestamp := 0,
          timeout := 300000, status := .timeout }
      ∧ ((timeoutFire approvalReached).state.agents.find?
          (fun x => x.id = "negotiator-001")).map (fun x => x.status)
        = some .error
      ∧ (timeoutFire approvalReached).state.isRunning
        = approvalReached.state.isRunning
      ∧ (timeoutFire approvalReached).state.toolCalls
        = approvalReached.state.toolCalls
      ∧ (timeoutFire approvalReached).timer = none :=
  c2_timeout_effects approvalReached "negotiator-001"
    { id := "approval-0",
      message := "Approve Oakland reroute for 150 containers?",
      requestedBy := "negotiator-001", timestamp := 0,
      timeout := 300000, status := .pending }
    (by decide) (by decide) (by decide)

/-- Counterexample for C2 as stated: after the timeout fires on the
reachable approval state, ApprovalRequest.status is timeout and the
requesting agent is error — but the run still reports running
(isRunning = true); the run is never transitioned to a failed/stopped
state by the timeout. -/
theorem c2_timeout_leaves_run_running :
    (timedOut.pendingApproval.map fun r => r.status) = some .timeout
      ∧ ((timedOut.state.agents.find? fun x => x.id = "negotiator-001").map
          fun x => x.status) = some .error
      ∧ timedOut.state.isRunning = true :=
  ⟨by decide, by decide, by decide⟩

/-- C1 (amended): a decide call that finds a request resolves it: afterwards
the approval cell and the timer are cleared, so every later decide call is a
no-op and the timeout can no longer fire.  (The converse direction fails:
the timeout firing does not block a later decide — see the counterexample —
so only decide-first resolutions are final.) -/
theorem c1_first_decide_final (envs : ℕ → StepEnv) (e : ℕ) (b : Bool)
    (s : Sys) (r : ApprovalRequest) (hp : s.pendingApproval = some r) :
    (handleApproval envs e b s).pendingApproval = none
      ∧ (handleApproval envs e b s).timer = none
      ∧ (∀ (envs2 : ℕ → StepEnv) (e2 : ℕ) (b2 : Bool),
          handleApproval envs2 e2 b2 (handleApproval envs e b s)
            = handleApproval envs e b s)
      ∧ timeoutFire (handleApproval envs e b s) = handleApproval envs e b s := by
  obtain ⟨h1, h2⟩ := handleApproval_resolved envs e b s r hp
  exact ⟨h1, h2, fun envs2 e2 b2 => handleApproval_noop envs2 e2 b2 _ h1,
    timeoutFire_noop _ h2⟩

/-- Witness for C1 as amended, at the concrete reachable approval state:
deciding false resolves the request; repeated decides and the timeout are
then no-ops. -/
theorem c1_first_decide_final_witness :
    (handleApproval failEnvs 0 false approvalReached).pendingApproval = none
      ∧ (handleApproval failEnvs 0 false approvalReached).timer = none
      ∧ (∀ (envs2 : ℕ → StepEnv) (e2 : ℕ) (b2 : Bool),
          handleApproval envs2 e2 b2
              (handleApproval failEnvs 0 false approvalReached)
            = handleApproval failEnvs 0 false approvalReached)
      ∧ timeoutFire (handleApproval failEnvs 0 false approvalReached)
          = handleApproval failEnvs 0 false approvalReached :=
  c1_first_decide_final failEnvs 0 false approvalReached
    { id := "approval-0",
      message := "Approve Oakland reroute for 150 containers?",
      requestedBy := "negotiator-001", timestamp := 0,
      timeout := 300000, status := .pending }
    (by decide)

/-- Counterexample for C1 as stated: a decide(true) issued after the timeout
has fired is NOT a no-op.  The guard of handleApproval only checks that an
ApprovalRequest is present — the timed-out request is still present — so the
call clears the request (status does not remain timeout), resumes steps 4
and 5, and completes the run. -/
theorem c1_decide_after_timeout_takes_effect :
    (timedOut.pendingApproval.map fun r => r.status) = some .timeout
      ∧ timedOut.state.isRunning = true
      ∧ (handleApproval failEnvs 0 true timedOut).pendingApproval = none
      ∧ (handleApproval failEnvs 0 true timedOut).state.isRunning = false
      ∧ (handleApproval failEnvs 0 true timedOut).state.endTime = some 0
      ∧ (handleApproval failEnvs 0 true timedOut).state.metrics.timeToResolution
          = 42/10 :=
  ⟨by decide, by decide, by decide, by decide, by decide, rfl⟩

/-- C6 (amended): when the step indices are exhausted the run completes —
isRunning becomes false and endTime is stamped — and
metrics.timeToResolution is set to the hardcoded constant 4.2, not computed
from the elapsed time; this holds on the resume-after-approval path
(handleApproval true) and on the straight-through completion block
(completeWorkflow). -/
theorem c6_completion_behavior (envs : ℕ → StepEnv) (e : ℕ) (s : Sys)
    (r : ApprovalRequest) (hp : s.pendingApproval = some r) (n : ℕ)
    (t : Sys) :
    (handleApproval envs e true s).state.isRunning = false
      ∧ (handleApproval envs e true s).state.endTime = some e
      ∧ (handleApproval envs e true s).state.metrics.timeToResolution = 42/10
      ∧ (completeWorkflow n t).state.isRunning = false
      ∧ (completeWorkflow n t).state.endTime = some n
      ∧ (completeWorkflow n t).state.metrics.timeToResolution = 42/10 := by
  have hx : ∃ x, handleApproval envs e true s = completeWorkflow e x := by
    unfold handleApproval handleApprovalT
    split
    next heq => rw [hp] at heq; cases heq
    next pa heq =>
      rw [if_pos rfl]
      dsimp only
      rw [resumeLoop_eq]
      exact ⟨_, rfl⟩
  obtain ⟨x, hx⟩ := hx
  rw [hx]
  exact ⟨rfl, rfl, rfl, rfl, rfl, rfl⟩

/-- Witness for C6 as amended, on the concrete reachable approval state. -/
theorem c6_completion_behavior_witness :
    (handleApproval failEnvs 3 true approvalReached).state.isRunning = false
      ∧ (handleApproval failEnvs 3 true approvalReached).state.endTime = some 3
      ∧ (handleApproval failEnvs 3 true approvalReached).state.metrics.timeToResolution
          = 42/10
      ∧ (completeWorkflow 9 initSys).state.isRunning = false
      ∧ (completeWorkflow 9 initSys).state.endTime = some 9
      ∧ (completeWorkflow 9 initSys).state.metrics.timeToResolution = 42/10 :=
  c6_completion_behavior failEnvs 3 approvalReached
    { id := "approval-0",
      message := "Approve Oakland reroute for 150 containers?",
      requestedBy := "negotiator-001", timestamp := 0,
      timeout := 300000, status := .pending }
    (by decide) 9 initSys

/-- Counterexample for C6 as stated: in a concrete approved run that starts
and ends at clock 0, the elapsed time now − startedAt is 0, yet
timeToResolutionMinutes is set to 4.2 — it is the hardcoded constant, not
the computed elapsed time. -/
theorem c6_time_to_resolution_constant :
    (handleApproval failEnvs 0 true approvalReached).state.startTime = some 0
      ∧ (handleApproval failEnvs 0 true approvalReached).state.endTime = some 0
      ∧ (handleApproval failEnvs 0 true approvalReached).state.metrics.timeToResolution
          = 42/10
      ∧ (42 : ℚ)/10 ≠ 0 - 0 :=
  ⟨by decide, by decide, rfl, by norm_num⟩

/-! ### Lemmas for the fallback path of callLaunchIOAgent -/

theorem find?_fresh_append_update (l : List ToolCall) (tc : ToolCall)
    (cid : String) (g : ToolCall → ToolCall)
    (hgid : ∀ c, (g c).id = c.id)
    (hfresh : ∀ c ∈ l, ¬ c.id = cid) (htc : tc.id = cid) :
    ((l ++ [tc]).map fun c => if c.id = cid then g c else c).find?
        (fun c => c.id = cid) = some (g tc) := by
  induction l with
  | nil =>
    simp only [List.nil_append, List.map_cons, List.map_nil]
    rw [List.find?_cons_of_pos _ (by simp [htc, hgid])]
    simp [htc]
  | cons b t ih =>
    have hb : ¬ b.id = cid := hfresh b (by simp)
    simp only [List.cons_append, List.map_cons]
    rw [if_neg hb, List.find?_cons_of_neg _ (by simp [hb])]
    exact ih fun c hc => hfresh c (by simp [hc])

theorem callLaunchIOAgent_error_toolCall (aid : String) (t : AgentType)
    (tool : String) (p : JsonVal) (cid : String) (d n : ℕ) (s : Sys)
    (hfresh : ∀ c ∈ s.state.toolCalls, ¬ c.id = cid) :
    ((callLaunchIOAgent aid t tool p cid .error d n s).state.toolCalls.find?
        (fun c => c.id = cid)).map (fun c => (c.status, c.result))
      = some (.success, some (getMockResultForTool tool)) := by
  show ((((s.state.toolCalls ++
      ([{ id := cid, agentId := aid, toolName := tool, parameters := p,
          result := none, timestamp := n, duration := none,
          status := .pending }] : List ToolCall)).map fun (c : ToolCall) =>
        if c.id = cid then
          ({ c with result := some (getMockResultForTool tool),
                    status := .success, duration := some 2000 } : ToolCall)
        else c).find? (fun c => c.id = cid)).map
      fun c => (c.status, c.result))
    = some (.success, some (getMockResultForTool tool))
  rw [find?_fresh_append_update s.state.toolCalls
      { id := cid, agentId := aid, toolName := tool, parameters := p,
        result := none, timestamp := n, duration := none,
        status := .pending }
      cid
      (fun c => { c with result := some (getMockResultForTool tool),
                         status := .success, duration := some 2000 })
      (fun c => rfl) hfresh rfl]
  rfl

theorem callLaunchIOAgent_error_agent (aid : String) (t : AgentType)
    (tool : String) (p : JsonVal) (cid : String) (d n : ℕ) (s : Sys)
    (hsome : (s.state.agents.find? fun x => x.id = aid).isSome) :
    ((callLaunchIOAgent aid t tool p cid .error d n s).state.agents.find?
        (fun x => x.id = aid)).map (fun x => x.status) = some .success := by
  have h1 : ((updateAgent aid (fun a => { a with status := .processing })
      (addToolCall
        { id := cid, agentId := aid, toolName := tool, parameters := p,
          result := none, timestamp := 0, duration := none,
          status := .pending } n s)).state.agents.find?
        fun x => x.id = aid).isSome :=
    updateAgent_find?_isSome aid _ _ (fun a => rfl) hsome
  exact updateAgent_find?_status _ _ _ .success (fun a => rfl)
    (fun a => rfl) h1

theorem executeStep_nonapproval_toolCalls_eq (env : StepEnv) (i : ℕ)
    (s : Sys) (st : WorkflowStepDef) (a : Agent)
    (hg : WORKFLOW_STEPS.get? i = some st)
    (ht : ¬ st.tool = "request_human_approval")
    (hf : s.state.agents.find? (fun x => x.type = st.agent) = some a) :
    (executeStep env i s).state.toolCalls
      = (callLaunchIOAgent a.id st.agent st.tool (stepParams st.agent)
          env.callId env.outcome env.duration env.now
          { s with state :=
              { s.state with currentStep := i + 1 } }).state.toolCalls := by
  unfold executeStep
  split
  next heq => rw [hg] at heq; cases heq
  next x step heq =>
    rw [hg] at heq
    injection heq with hstep
    subst hstep
    split
    next heq2 =>
      have h2 : s.state.agents.find? (fun x => x.type = st.agent)
          = none := heq2
      rw [hf] at h2
      cases h2
    next y agent heq2 =>
      have h2 : s.state.agents.find? (fun x => x.type = st.agent)
          = some agent := heq2
      rw [hf] at h2
      injection h2 with h2
      subst h2
      rw [if_neg ht]
      split <;> split <;> rfl

theorem executeStep_nonapproval_agents_eq (env : StepEnv) (i : ℕ)
    (s : Sys) (st : WorkflowStepDef) (a : Agent)
    (hg : WORKFLOW_STEPS.get? i = some st)
    (ht : ¬ st.tool = "request_human_approval")
    (hf : s.state.agents.find? (fun x => x.type = st.agent) = some a) :
    (executeStep env i s).state.agents
      = (callLaunchIOAgent a.id st.agent st.tool (stepParams st.agent)
          env.callId env.outcome env.duration env.now
          { s with state :=
              { s.state with currentStep := i + 1 } }).state.agents := by
  unfold executeStep
  split
  next heq => rw [hg] at heq; cases heq
  next x step heq =>
    rw [hg] at heq
    injection heq with hstep
    subst hstep
    split
    next heq2 =>
      have h2 : s.state.agents.find? (fun x => x.type = st.agent)
          = none := heq2
      rw [hf] at h2
      cases h2
    next y agent heq2 =>
      have h2 : s.state.agents.find? (fun x => x.type = st.agent)
          = some agent := heq2
      rw [hf] at h2
      injection h2 with h2
      subst h2
      rw [if_neg ht]
      split <;> split <;> rfl

/-- C3: for every non-approval step, a failure of the external agent
invocation never stops the run (isRunning unchanged), the error is caught
and the deterministic fallback result keyed by toolName is substituted, the
ToolCall is recorded with status success carrying that fallback result, and
the owning Agent ends with status success. -/
theorem c3_invoker_failure_fallback (env : StepEnv) (i : ℕ) (s : Sys)
    (st : WorkflowStepDef) (a : Agent)
    (hg : WORKFLOW_STEPS.get? i = some st)
    (ht : ¬ st.tool = "request_human_approval")
    (ho : env.outcome = .error)
    (hf : s.state.agents.find? (fun x => x.type = st.agent) = some a)
    (hfresh : ∀ c ∈ s.state.toolCalls, ¬ c.id = env.callId) :
    (executeStep env i s).state.isRunning = s.state.isRunning
      ∧ ((executeStep env i s).state.toolCalls.find?
          (fun c => c.id = env.callId)).map (fun c => (c.status, c.result))
        = some (.success, some (getMockResultForTool st.tool))
      ∧ ((executeStep env i s).state.agents.find? (fun x => x.id = a.id)).map
          (fun x => x.status) = some .success := by
  have hsome : (s.state.agents.find? fun x => x.id = a.id).isSome := by
    rw [List.find?_isSome]
    exact ⟨a, List.mem_of_find?_eq_some hf, by simp⟩
  refine ⟨executeStep_isRunning env i s, ?_, ?_⟩
  · rw [executeStep_nonapproval_toolCalls_eq env i s st a hg ht hf, ho]
    exact callLaunchIOAgent_error_toolCall a.id st.agent st.tool
      (stepParams st.agent) env.callId env.duration env.now _ hfresh
  · rw [executeStep_nonapproval_agents_eq env i s st a hg ht hf, ho]
    exact callLaunchIOAgent_error_agent a.id st.agent st.tool
      (stepParams st.agent) env.callId env.duration env.now _ hsome

/-- Witness for C3 at a concrete input: step 0 right after start
initialization, with the invocation failing. -/
theorem c3_invoker_failure_fallback_witness :
    (executeStep (failEnvs 0) 0 (startInit 0 none initSys)).state.isRunning
        = (startInit 0 none initSys).state.isRunning
      ∧ ((executeStep (failEnvs 0) 0
            (startInit 0 none initSys)).state.toolCalls.find?
          (fun c => c.id = (failEnvs 0).callId)).map
            (fun c => (c.status, c.result))
        = some (.success, some (getMockResultForTool "analyze_satellite_imagery"))
      ∧ ((executeStep (failEnvs 0) 0
            (startInit 0 none initSys)).state.agents.find?
          (fun x => x.id = "sentinel-001")).map (fun x => x.status)
        = some .success :=
  c3_invoker_failure_fallback (failEnvs 0) 0 (startInit 0 none initSys)
    { step := 1, title := "Threat Detection",
      description := "Sentinel detects LA port congestion via satellite imagery",
      agent := .sentinel, tool := "analyze_satellite_imagery",
      expectedDuration := 45 }
    { id := "sentinel-001", name := "Watchtower", type := .sentinel,
      status := .idle,
      description := "Real-time anomaly detection and threat monitoring",
      tools := ["analyze_satellite_imagery", "monitor_darkweb",
                "scan_iot_sensors", "detect_anomalies"],
      confidence := some 0, lastUpdate := none }
    (by decide) (by decide) rfl rfl
    (by rw [startInit_toolCalls]; intro c hc; cases hc)

/-- C4: in every run the workflow steps execute in strictly increasing
index order: the start loop executes exactly indices 0,1,2,3 and suspends
at the approval step (index 3, the request stays pending and the run keeps
running rather than auto-completing), and on approval the resume loop
executes exactly indices 4,5 — so the whole executed order 0..5 is strictly
increasing and resumption begins at 4 = 3 + 1. -/
theorem c4_step_order (n : ℕ) (a : Option AnalysisData) (envs : ℕ → StepEnv)
    (e : ℕ) (s : Sys) (envs2 : ℕ → StepEnv) (e2 : ℕ) (s2 : Sys)
    (r2 : ApprovalRequest) :
    (startWorkflowT n a envs e s).2 = [0, 1, 2, 3]
      ∧ ((startWorkflowT n a envs e s).1.pendingApproval.map
          fun r => r.status) = some .pending
      ∧ (startWorkflowT n a envs e s).1.state.isRunning = true
      ∧ ((WORKFLOW_STEPS.get? 3).map fun st => st.tool)
          = some "request_human_approval"
      ∧ (s2.pendingApproval = some r2 →
          (handleApprovalT envs2 e2 true s2).2 = [4, 5])
      ∧ List.Chain' (· < ·) ([0, 1, 2, 3] ++ [4, 5]) := by
  refine ⟨?_, ?_, ?_, by decide, ?_, by simp [List.chain'_cons]⟩
  · rw [startWorkflowT_eq]
  · rw [startWorkflowT_eq]
    dsimp only
    have hsk : agentSkeleton (executeStep (envs 2) 2 (executeStep (envs 1) 1
        (executeStep (envs 0) 0 (startInit n a s)))).state.agents
        = agentSkeleton MOCK_AGENTS := by
      rw [executeStep_skeleton, executeStep_skeleton, executeStep_skeleton,
        startInit_skeleton]
    have hmap : (((executeStep (envs 2) 2 (executeStep (envs 1) 1
        (executeStep (envs 0) 0 (startInit n a s)))).state.agents.find?
          fun x => x.type = AgentType.negotiator).map fun x => x.id)
        = some "negotiator-001" := by
      rw [find?_type_id, hsk]
      rfl
    obtain ⟨aa, hfa, haid⟩ := Option.map_eq_some'.mp hmap
    rw [(executeStep_approval_opens (envs 3) _ aa hfa).1]
    rfl
  · rw [startWorkflowT_eq]
    dsimp only
    rw [executeStep_isRunning, executeStep_isRunning, executeStep_isRunning,
      executeStep_isRunning, startInit_isRunning]
  · intro hp2
    unfold handleApprovalT
    split
    next heq => rw [hp2] at heq; cases heq
    next pa heq =>
      rw [if_pos rfl]
      dsimp only
      rw [resumeLoop_eq]

/-- Witness for C4 at concrete inputs: the concrete start run and the
concrete resume after approval. -/
theorem c4_step_order_witness :
    (startWorkflowT 0 none failEnvs 0 initSys).2 = [0, 1, 2, 3]
      ∧ (handleApprovalT failEnvs 0 true approvalReached).2 = [4, 5] := by
  have h := c4_step_order 0 none failEnvs 0 initSys failEnvs 0
    approvalReached
    { id := "approval-0",
      message := "Approve Oakland reroute for 150 containers?",
      requestedBy := "negotiator-001", timestamp := 0,
      timeout := 300000, status := .pending }
  exact ⟨h.1, h.2.2.2.2.1 (by decide)⟩
